import Mathlib

/-!
Verification of the benchmark-engine core against its specification.

This file gives a shallow embedding, in Lean 4, of the pure decision logic of
the benchmark-engine repository, and proves (or refutes) the specified
properties against it.  Each definition is translated directly from the Python
source file named in its doc comment.  Python strings are modelled as
`List Char` where character-level rewriting matters and as `String` elsewhere;
Python floats are modelled as `ℚ`; Python `None` as `Option`; database time
stamps as integers (seconds).  Character classification (upper case, lower
case, whitespace) is modelled at ASCII precision, which covers every string
the program manipulates.
-/

/-! ## Character and string primitives -/

/-- Characters removed by Python `str.strip()` (ASCII whitespace). -/
def isPySpace (c : Char) : Bool :=
  c = ' ' || c = '\t' || c = '\n' || c = '\x0b' || c = '\x0c' || c = '\r'

/-- Python `str.strip()`: drop whitespace from both ends. -/
def pyStrip (s : List Char) : List Char :=
  ((s.dropWhile isPySpace).reverse.dropWhile isPySpace).reverse

/-- ASCII lower-casing, as Python `str.lower()` acts on ASCII letters. -/
def pyToLower (c : Char) : Char :=
  if c.isUpper then Char.ofNat (c.toNat + 32) else c

/-- The character list of a string literal. -/
def lit (s : String) : List Char := s.data

/-- Python `pat in s` for plain substrings: some suffix of `s` starts with `pat`. -/
def containsStr (pat : List Char) : List Char → Bool
  | [] => pat.isEmpty
  | c :: rest => pat.isPrefixOf (c :: rest) || containsStr pat rest

/-- Fuel-driven worker for `replaceAll`: replace non-overlapping occurrences of
`pat` by `rep`, scanning left to right, exactly as `re.sub` does for a literal
pattern.  `fuel` only bounds the recursion; `s.length` is always enough. -/
def replaceAllAux (pat rep : List Char) : Nat → List Char → List Char
  | 0, s => s
  | fuel + 1, s =>
    if pat.isPrefixOf s then rep ++ replaceAllAux pat rep fuel (s.drop pat.length)
    else
      match s with
      | [] => []
      | c :: rest => c :: replaceAllAux pat rep fuel rest

/-- `re.sub(pat, rep, s)` for a literal pattern `pat`. -/
def replaceAll (pat rep s : List Char) : List Char :=
  replaceAllAux pat rep s.length s

/-- Case-insensitive prefix test (ASCII case folding, as `re.IGNORECASE`). -/
def isPrefixOfCI : List Char → List Char → Bool
  | [], _ => true
  | _ :: _, [] => false
  | p :: ps, c :: cs => (pyToLower p == pyToLower c) && isPrefixOfCI ps cs

/-- Fuel-driven worker for `replaceAllCI`. -/
def replaceAllCIAux (pat rep : List Char) : Nat → List Char → List Char
  | 0, s => s
  | fuel + 1, s =>
    if isPrefixOfCI pat s then rep ++ replaceAllCIAux pat rep fuel (s.drop pat.length)
    else
      match s with
      | [] => []
      | c :: rest => c :: replaceAllCIAux pat rep fuel rest

/-- `re.sub(pat, rep, s, flags=re.IGNORECASE)` for a literal pattern. -/
def replaceAllCI (pat rep s : List Char) : List Char :=
  replaceAllCIAux pat rep s.length s

/-! ## Model-name normalizer (src/src/utils/model_name_normalizer.py) -/

/-- `re.sub("^<literal>", "", s)`: strip one literal prefix if present. -/
def stripLit (pat s : List Char) : List Char :=
  if pat.isPrefixOf s then s.drop pat.length else s

/-- The OpenRouter prefix rule `re.sub(r"^[^/]+/", "", s)`: remove a non-empty
leading segment of non-slash characters together with the slash ending it. -/
def stripGeneric (s : List Char) : List Char :=
  let pre := s.takeWhile (fun c => c ≠ '/')
  let post := s.dropWhile (fun c => c ≠ '/')
  if pre.isEmpty || post.isEmpty then s else post.drop 1

/-- Step 6 of the normalizer, `re.sub(r"-+", "-", s)`: collapse every run of
hyphens to a single hyphen. -/
def collapseHyphens : List Char → List Char
  | [] => []
  | [c] => [c]
  | c1 :: c2 :: rest =>
    if c1 = '-' ∧ c2 = '-' then collapseHyphens (c2 :: rest)
    else c1 :: collapseHyphens (c2 :: rest)

/-- Whether the list contains two adjacent hyphens (the redex of step 6). -/
def hasDD : List Char → Bool
  | [] => false
  | [_] => false
  | c1 :: c2 :: rest => (decide (c1 = '-') && decide (c2 = '-')) || hasDD (c2 :: rest)

/-- Step 7a, `re.sub(r"(\d+)B-", r"\1b-", s)`: lower-case a `B` that directly
follows a digit and directly precedes a hyphen. -/
def lowerBdash : List Char → List Char
  | [] => []
  | [c] => [c]
  | [c1, c2] => [c1, c2]
  | c1 :: c2 :: c3 :: rest =>
    if c1.isDigit ∧ c2 = 'B' ∧ c3 = '-' then c1 :: 'b' :: '-' :: lowerBdash rest
    else c1 :: lowerBdash (c2 :: c3 :: rest)

/-- Step 7b, `re.sub(r"(\d+)B$", r"\1b", s)`: lower-case a final `B` preceded
by a digit. -/
def lowerBend (s : List Char) : List Char :=
  match s.reverse with
  | 'B' :: d :: rest => if d.isDigit then ('b' :: d :: rest).reverse else s
  | _ => s

/-- `normalize_model_name` from src/src/utils/model_name_normalizer.py,
with its seven steps applied in source order: strip, prefix removal in
PROVIDER_PREFIXES order, the six version-token rewrites (the keys of
REPLACEMENTS that start with `v`), family-name case folding (`llama`
twice — once ignoring case, once for the literal `Llama` — then `mixtral`,
`mistral`, `qwen`), the instruct-suffix rewrites, underscore to hyphen,
hyphen-run collapsing, size-suffix lower-casing, and a final strip. -/
def normalize_model_name (raw : List Char) : List Char :=
  if raw.isEmpty then raw
  else
    let n0 := pyStrip raw
    let n1 := stripLit (lit "accounts/fireworks/models/") n0
    let n2 := stripLit (lit "models/") n1
    let n3 := stripGeneric n2
    let n4 := stripLit (lit "meta-llama/") n3
    let n5 := stripLit (lit "mistralai/") n4
    let n6 := stripLit (lit "NousResearch/") n5
    let n7 := stripLit (lit "Qwen/") n6
    let v1 := replaceAll (lit "v3p3") (lit "3.3") n7
    let v2 := replaceAll (lit "v3p2") (lit "3.2") v1
    let v3 := replaceAll (lit "v3p1") (lit "3.1") v2
    let v4 := replaceAll (lit "v2p5") (lit "2.5") v3
    let v5 := replaceAll (lit "v2p0") (lit "2.0") v4
    let v6 := replaceAll (lit "v1p5") (lit "1.5") v5
    let f1 := replaceAllCI (lit "llama") (lit "llama") v6
    let f2 := replaceAll (lit "Llama") (lit "llama") f1
    let f3 := replaceAllCI (lit "mixtral") (lit "mixtral") f2
    let f4 := replaceAllCI (lit "mistral") (lit "mistral") f3
    let f5 := replaceAllCI (lit "qwen") (lit "qwen") f4
    let g1 := replaceAll (lit "-Instruct") (lit "-instruct") f5
    let g2 := replaceAll (lit "_instruct") (lit "-instruct") g1
    let g3 := replaceAll (lit "_") (lit "-") g2
    let g4 := collapseHyphens g3
    let g5 := lowerBdash g4
    let g6 := lowerBend g5
    pyStrip g6

/-- Characters on which the normalizer is inert apart from hyphen collapsing:
not upper case, not a path separator, not an underscore, not whitespace. -/
def plainChar (c : Char) : Bool :=
  !c.isUpper && c ≠ '/' && c ≠ '_' && !isPySpace c

/-- The six version tokens rewritten by step 2 of the normalizer. -/
def versionTokens : List (List Char) :=
  [lit "v3p3", lit "v3p2", lit "v3p1", lit "v2p5", lit "v2p0", lit "v1p5"]

/-! ## Token validator (src/src/utils/token_validator.py) -/

/-- Result record of `validate_token_counts`. -/
structure TokenValidation where
  input_tokens : Int
  output_tokens : Int
  input_tokens_estimated : Bool
  output_tokens_estimated : Bool
  validation_warnings : List String
  is_valid : Bool
deriving DecidableEq

/-- Python `str(x)` for an optional integer (`None` prints as `"None"`). -/
def pyReprOptInt : Option Int → String
  | none => "None"
  | some n => toString n

/-- Python truthiness of an optional string. -/
def pyTruthyStr : Option String → Bool
  | none => false
  | some s => s ≠ ""

/-- `validate_token_counts(input_tokens, output_tokens, prompt, response,
min_input_tokens)`.  The tokenizer used by `estimate_tokens(·, "tiktoken")`
depends on the installed tiktoken library, so it is passed in as `tok`.
Each branch mirrors the mutations of the Python `result` dict, in order:
the input branch, the minimum-threshold check, then the output branch. -/
def validate_token_counts (tok : String → Nat)
    (input_tokens output_tokens : Option Int)
    (prompt response : Option String) (min_input_tokens : Int) : TokenValidation :=
  let invalidIn : Bool := match input_tokens with
    | none => true
    | some n => decide (n ≤ 0)
  let inBranch : Int × Bool × List String × Bool :=
    if invalidIn then
      match prompt with
      | some p =>
        if p ≠ "" then
          ((tok p : Int), true,
            ["Input tokens was " ++ pyReprOptInt input_tokens ++ ", estimated "
              ++ toString (tok p) ++ " from prompt"], false)
        else (0, false, ["Input tokens invalid and no prompt provided for estimation"], false)
      | none => (0, false, ["Input tokens invalid and no prompt provided for estimation"], false)
    else (input_tokens.getD 0, false, [], true)
  let vIn := inBranch.1
  let belowMin : Bool := decide (vIn < min_input_tokens)
  let threshWarnings : List String :=
    if belowMin then
      ["Input tokens (" ++ toString vIn ++ ") below minimum threshold ("
        ++ toString min_input_tokens ++ ")"]
    else []
  let validAfterThresh : Bool := if belowMin then false else inBranch.2.2.2
  let invalidOut : Bool := match output_tokens with
    | none => true
    | some n => decide (n ≤ 0)
  let outBranch : Int × Bool × List String :=
    if invalidOut then
      match response with
      | some r =>
        if r ≠ "" then
          ((tok r : Int), true,
            ["Output tokens was " ++ pyReprOptInt output_tokens ++ ", estimated "
              ++ toString (tok r) ++ " from response"])
        else (0, false, ["Output tokens invalid and no response provided for estimation"])
      | none => (0, false, ["Output tokens invalid and no response provided for estimation"])
    else (output_tokens.getD 0, false, [])
  { input_tokens := vIn
    output_tokens := outBranch.1
    input_tokens_estimated := inBranch.2.1
    output_tokens_estimated := outBranch.2.1
    validation_warnings := inBranch.2.2.1 ++ threshWarnings ++ outBranch.2.2
    is_valid := if invalidOut then false else validAfterThresh }

/-- `should_fail_benchmark(validation_result)`. -/
def should_fail_benchmark (v : TokenValidation) : Bool :=
  if v.input_tokens < 10 then true
  else if v.input_tokens = 0 ∧ v.output_tokens = 0 then true
  else false

/-- `get_validation_summary(validation_result)`. -/
def get_validation_summary (v : TokenValidation) : String :=
  if v.is_valid then "Token counts valid"
  else
    let p1 :=
      if v.input_tokens_estimated then "Input: " ++ toString v.input_tokens ++ " (estimated)"
      else "Input: " ++ toString v.input_tokens
    let p2 :=
      if v.output_tokens_estimated then "Output: " ++ toString v.output_tokens ++ " (estimated)"
      else "Output: " ++ toString v.output_tokens
    let summary := p1 ++ " | " ++ p2
    if v.validation_warnings.isEmpty then summary
    else summary ++ " | Warnings: " ++ toString v.validation_warnings.length

/-- `truncate_response_text` from backend/src/utils/response_optimizer.py. -/
def truncate_response_text (text : String) (success : Bool) (maxLength : Nat) : String :=
  if text = "" then text
  else if !success then text
  else if text.length ≤ maxLength then text
  else ⟨text.data.take maxLength⟩ ++ "..."

/-! ## save_benchmark persistence pipeline
(src/src/database/supabase_client.py `save_benchmark` and the identical
transformation in src/src/database/local_db_client.py `save_result`) -/

/-- The fields of the incoming benchmark dict that the validation and
truncation pipeline reads or writes. -/
structure BenchmarkInput where
  input_tokens : Option Int
  output_tokens : Option Int
  success : Bool
  error_message : Option String
  response_text : Option String
deriving DecidableEq

/-- The corresponding fields of the row that is inserted. -/
structure BenchmarkRow where
  input_tokens : Int
  output_tokens : Int
  success : Bool
  error_message : Option String
  response_text : Option String
deriving DecidableEq

/-- The validator call made inside `save_benchmark`: the prompt argument is
the literal `None` (the layer does not store prompts), the response argument
is the dict's `response_text`, and the threshold is the default 10. -/
def save_benchmark_validation (tok : String → Nat) (d : BenchmarkInput) : TokenValidation :=
  validate_token_counts tok d.input_tokens d.output_tokens none d.response_text 10

/-- The pure data transformation `save_benchmark` applies before inserting the
row: overwrite the token counts with the validated ones, rewrite the record to
a failure when `should_fail_benchmark` holds, then truncate `response_text`
(only when it is present and truthy) using the possibly-rewritten success
flag. -/
def save_benchmark_row (tok : String → Nat) (d : BenchmarkInput) : BenchmarkRow :=
  let v := save_benchmark_validation tok d
  let failTok := should_fail_benchmark v
  let success1 := if failTok then false else d.success
  let errmsg1 :=
    if failTok then some ("Token validation failed: " ++ get_validation_summary v)
    else d.error_message
  let rtext := match d.response_text with
    | some t => if t ≠ "" then some (truncate_response_text t success1 100) else some t
    | none => none
  { input_tokens := v.input_tokens
    output_tokens := v.output_tokens
    success := success1
    error_message := errmsg1
    response_text := rtext }

/-! ## Retry logic (src/src/utils/retry_logic.py, src/src/providers/base_provider.py) -/

/-- The standard result envelope returned by every provider adapter. -/
structure Envelope where
  input_tokens : Int
  output_tokens : Int
  reasoning_tokens : Option Int
  total_latency_ms : ℚ
  ttft_ms : Option ℚ
  tps : Option ℚ
  status_code : Option Nat
  cost_usd : ℚ
  success : Bool
  error_message : Option String
  error_type : Option String
  response_text : Option String
deriving DecidableEq

/-- `RetryConfig` from src/src/utils/retry_logic.py. -/
structure RetryConfig where
  max_retries : Nat
  initial_delay : ℚ
  max_delay : ℚ
  exponential_base : ℚ
  retry_on_status_codes : List Nat
deriving DecidableEq

/-- The default `RetryConfig()` — also the configuration `BaseProvider.__init__`
builds for `call_with_retry`: three retries, delays from 1 s doubling, capped at
10 s, status codes `range(500, 600)`. -/
def defaultRetryConfig : RetryConfig :=
  { max_retries := 3
    initial_delay := 1
    max_delay := 10
    exponential_base := 2
    retry_on_status_codes := List.range' 500 100 }

/-- `str(result.get("error_message", ""))` — the envelopes all carry the key,
so a Python `None` value prints as `"None"`. -/
def pyStrOfOptMsg : Option String → List Char
  | none => lit "None"
  | some s => s.data

/-- The transient-error keywords of `should_retry`, in source order.  Note that
`"429"` is on the list (annotated "Rate limit (sometimes transient)" in the
source). -/
def transientKeywords : List (List Char) :=
  [lit "503", lit "502", lit "504", lit "429", lit "timeout",
    lit "connection reset", lit "connection refused", lit "temporary failure"]

/-- `should_retry(result, config)`: never retry a successful result; retry on a
truthy status code contained in `config.retry_on_status_codes`; otherwise retry
when the lower-cased error message contains one of the transient keywords. -/
def should_retry (r : Envelope) (cfg : RetryConfig) : Bool :=
  if r.success then false
  else
    let statusHit : Bool := match r.status_code with
      | some c => decide (c ≠ 0) && cfg.retry_on_status_codes.contains c
      | none => false
    if statusHit then true
    else
      let msg := (pyStrOfOptMsg r.error_message).map pyToLower
      transientKeywords.any (fun k => containsStr k msg)

/-- The loop body of `retry_with_backoff`: `calls n` is the envelope produced
by the `(n+1)`-st invocation of the wrapped function (the sleeps between
retries do not affect the returned value and are not modelled).  The second
argument is the number of loop iterations still available. -/
def retryFrom (cfg : RetryConfig) (calls : Nat → Envelope) : Nat → Nat → Envelope
  | attempt, 0 => calls attempt
  | attempt, fuel + 1 =>
    let r := calls attempt
    if !should_retry r cfg then r
    else if fuel = 0 then r
    else retryFrom cfg calls (attempt + 1) fuel

/-- `retry_with_backoff(func, config)`: up to `max_retries + 1` invocations;
the first result that is not retry-worthy is returned at once, and after the
last iteration the final (retry-worthy) result is returned. -/
def retry_with_backoff (cfg : RetryConfig) (calls : Nat → Envelope) : Envelope :=
  retryFrom cfg calls 0 (cfg.max_retries + 1)

/-! ## Budget circuit breaker (src/backend/src/utils/budget_breaker.py) -/

/-- The dict returned by `check_budget` (the four-decimal display rounding of
`current_spend`/`remaining_budget` and the `percent_used` field are
presentation only and are not modelled; the abort decision uses the raw
values, as in the source). -/
structure BudgetStatus where
  within_budget : Bool
  current_spend : ℚ
  budget_cap : ℚ
  remaining_budget : ℚ
  time_window_hours : Nat
  should_abort : Bool
deriving DecidableEq

/-- `_get_recent_spending(db, hours)`: the underlying cost query either
produces a total or raises; the handler catches every exception and returns
`0.0`. -/
def get_recent_spending (query : Except String ℚ) : ℚ :=
  match query with
  | Except.ok total => total
  | Except.error _ => 0

/-- `check_budget(db, hours)` of `BudgetCircuitBreaker` with cap `budget_cap`:
`within_budget = current_spend < budget_cap` and
`should_abort = not within_budget`. -/
def check_budget (budget_cap : ℚ) (query : Except String ℚ) (hours : Nat) : BudgetStatus :=
  let current_spend := get_recent_spending query
  { within_budget := decide (current_spend < budget_cap)
    current_spend := current_spend
    budget_cap := budget_cap
    remaining_budget := budget_cap - current_spend
    time_window_hours := hours
    should_abort := !decide (current_spend < budget_cap) }

/-! ## Queue state (src/src/database/supabase_client.py and
src/src/database/local_db_client.py, queue section) -/

inductive QStatus
  | pending
  | processing
  | completed
  | failed
deriving DecidableEq

/-- A benchmark_queue row (timestamps as abstract integers). -/
structure QItem where
  status : QStatus
  attempts : Nat
  maxAttempts : Nat
  errorMessage : Option String
  startedAt : Option Nat
  completedAt : Option Nat
deriving DecidableEq

/-- `mark_queue_item_processing(id)`: status to processing, `started_at = now`,
and `attempts` incremented by one. -/
def mark_queue_item_processing (it : QItem) (now : Nat) : QItem :=
  { it with status := QStatus.processing, startedAt := some now, attempts := it.attempts + 1 }

/-- `mark_queue_item_completed(id)`: status to completed, `completed_at = now`. -/
def mark_queue_item_completed (it : QItem) (now : Nat) : QItem :=
  { it with status := QStatus.completed, completedAt := some now }

/-- `mark_queue_item_failed(id, error_message)` (identical logic in both DB
clients): read the current counters, set `attempts` to the read value plus
one, then mark the row failed with `completed_at = now` when the incremented
value reaches `max_attempts`, and otherwise return it to pending with
`completed_at` cleared. -/
def mark_queue_item_failed (it : QItem) (msg : String) (now : Nat) : QItem :=
  let attempts := it.attempts + 1
  if attempts ≥ it.maxAttempts then
    { it with
      status := QStatus.failed
      attempts := attempts
      errorMessage := some msg
      completedAt := some now }
  else
    { it with
      status := QStatus.pending
      attempts := attempts
      errorMessage := some msg
      completedAt := none }

/-- A fresh queue row: enqueued as pending with zero attempts. -/
def initQItem (maxAttempts : Nat) : QItem :=
  { status := QStatus.pending
    attempts := 0
    maxAttempts := maxAttempts
    errorMessage := none
    startedAt := none
    completedAt := none }

/-- One processing round of `run_benchmark_batch`
(backend/src/benchmarking/queue_benchmark_runner.py, lines 69-226) acting on a
single pending queue item:
either the max-attempts skip path (line 83: fail directly), a successful round
(claim then complete), or a failing round — adapter failure, persistence
failure or raised exception all claim the item and then call
`mark_queue_item_failed`. -/
inductive RunnerStep : QItem → QItem → Prop
  | maxed (it : QItem) (now : Nat) :
      it.status = QStatus.pending → it.attempts ≥ it.maxAttempts →
      RunnerStep it
        (mark_queue_item_failed it
          ("Max retry attempts (" ++ toString it.maxAttempts ++ ") exceeded") now)
  | succeeded (it : QItem) (now1 now2 : Nat) :
      it.status = QStatus.pending → it.attempts < it.maxAttempts →
      RunnerStep it (mark_queue_item_completed (mark_queue_item_processing it now1) now2)
  | failedCall (it : QItem) (msg : String) (now1 now2 : Nat) :
      it.status = QStatus.pending → it.attempts < it.maxAttempts →
      RunnerStep it (mark_queue_item_failed (mark_queue_item_processing it now1) msg now2)

/-- Queue states reachable from a fresh row through batch processing. -/
def ReachableQ (maxAttempts : Nat) (it : QItem) : Prop :=
  Relation.ReflTransGen RunnerStep (initQItem maxAttempts) it

/-! ## Batch statistics (backend/src/benchmarking/queue_benchmark_runner.py) -/

/-- How one queue item's processing ends, when it is not skipped by the
max-attempts check. -/
inductive ItemOutcome
  | adapterFailed
  | saveFailed
  | succeeded
  | crashed
deriving DecidableEq

/-- What the runner reads from a fetched queue item, plus the outcome its
processing will take. -/
structure BatchItem where
  attempts : Nat
  maxAttempts : Nat
  outcome : ItemOutcome
deriving DecidableEq

/-- The statistics dict returned by `run_benchmark_batch`. -/
structure BatchStats where
  status : String
  processed : Nat
  successful : Nat
  failed : Nat
deriving DecidableEq

/-- The per-item counter updates of the loop body: the skip branch and every
failure branch count one processed and one failed; the success branch counts
one processed and one successful. -/
def stepCounters (c : Nat × Nat × Nat) (it : BatchItem) : Nat × Nat × Nat :=
  if it.attempts ≥ it.maxAttempts then (c.1 + 1, c.2.1, c.2.2 + 1)
  else
    match it.outcome with
    | ItemOutcome.succeeded => (c.1 + 1, c.2.1 + 1, c.2.2)
    | _ => (c.1 + 1, c.2.1, c.2.2 + 1)

/-- `run_benchmark_batch`: `budget = some true` means the breaker demanded an
abort, `some false` that it allowed the batch, `none` that the budget check
itself raised (the handler continues fail-open).  `fetched = none` models a
failed `get_pending_queue_items` call (which yields the idle path, like an
empty list). -/
def run_benchmark_batch (budget : Option Bool) (fetched : Option (List BatchItem)) : BatchStats :=
  match budget with
  | some true => { status := "aborted", processed := 0, successful := 0, failed := 0 }
  | _ =>
    match fetched with
    | none => { status := "idle", processed := 0, successful := 0, failed := 0 }
    | some [] => { status := "idle", processed := 0, successful := 0, failed := 0 }
    | some items =>
      let c := items.foldl stepCounters (0, 0, 0)
      { status := "completed", processed := c.1, successful := c.2.1, failed := c.2.2 }

/-! ## Price rows (src/src/database/supabase_client.py `save_price`,
src/src/pricing_scraper/pricing_scraper.py `save_prices_to_db`) -/

/-- A row of the prices table. -/
structure PriceRow where
  provider_id : Nat
  model_id : Nat
  input_price_per_m : ℚ
  output_price_per_m : ℚ
  timestamp : Int
deriving DecidableEq

/-- `save_price(provider_id, model_id, input_price, output_price)` of the
Supabase client: an unconditional insert of a new row (timestamped now). -/
def save_price (table : List PriceRow) (pid mid : Nat) (inP outP : ℚ) (now : Int) :
    List PriceRow :=
  table ++ [{ provider_id := pid
              model_id := mid
              input_price_per_m := inP
              output_price_per_m := outP
              timestamp := now }]

/-- `get_last_price_timestamp(provider_id, model_id)`: the newest timestamp
among the rows of that pair, if any. -/
def get_last_price_timestamp (table : List PriceRow) (pid mid : Nat) : Option Int :=
  (table.filter (fun r => r.provider_id == pid && r.model_id == mid)).foldl
    (fun acc r =>
      match acc with
      | none => some r.timestamp
      | some t => some (max t r.timestamp)) none

/-- The per-row body of the scraper's `save_prices_to_db`: consult
`get_last_price_timestamp` and skip the `save_price` call when the newest row
is younger than 24 hours (86400 seconds); otherwise insert. -/
def save_prices_to_db_row (table : List PriceRow) (pid mid : Nat) (inP outP : ℚ)
    (now : Int) : List PriceRow :=
  match get_last_price_timestamp table pid mid with
  | some last => if now - last < 86400 then table else save_price table pid mid inP outP now
  | none => save_price table pid mid inP outP now

/-! ## Provider adapters: streaming epilogue
(src/src/providers/openai_compatible_provider.py `call`,
src/src/providers/google_provider.py `call`) -/

/-- Usage data of a terminal OpenAI-style chunk. -/
structure OAUsage where
  prompt_tokens : Int
  completion_tokens : Int
  reasoning_tokens : Option Int
deriving DecidableEq

/-- An OpenAI-style streaming chunk: optional delta content, optional usage. -/
structure OAChunk where
  content : Option String
  usage : Option OAUsage
deriving DecidableEq

/-- The content a chunk contributes to the buffer: `chunk.choices[0].delta.content`
when truthy. -/
def oaContentOf (c : OAChunk) : Option String :=
  match c.content with
  | some t => if t ≠ "" then some t else none
  | none => none

/-- The accumulated response buffer `"".join(response_chunks)`. -/
def oaResponseText (cs : List OAChunk) : String :=
  String.join (cs.filterMap oaContentOf)

/-- The last usage object seen in the stream (each one overwrites the
previous). -/
def oaFinalUsage (cs : List OAChunk) : Option OAUsage :=
  cs.foldl (fun acc c => match c.usage with | some u => some u | none => acc) none

/-- The timing values produced by `StreamingMetrics` for one call; actual wall
clock behaviour is outside the model, so they are inputs. -/
structure MetricsOut where
  latency_ms : ℚ
  ttft_ms : Option ℚ
  tps_of : Int → Option ℚ

/-- `_estimate_tokens(text)` of the provider classes: `max(1, len(text) // 4)`. -/
def estimate_tokens_simple (text : String) : Int :=
  Int.ofNat (max 1 (text.length / 4))

/-- The value `OpenAICompatibleProvider.call` returns after the stream closes
without raising: tokens from the final usage if present, otherwise estimated;
always `success=True` with `status_code=200` — there is no empty-buffer
check in this adapter. -/
def openai_compatible_call (cs : List OAChunk) (prompt system_prompt : String)
    (price_in price_out : ℚ) (m : MetricsOut) : Envelope :=
  let response_text := oaResponseText cs
  let usage := oaFinalUsage cs
  let inT := match usage with
    | some u => u.prompt_tokens
    | none => estimate_tokens_simple (prompt ++ system_prompt)
  let outT := match usage with
    | some u => u.completion_tokens
    | none => estimate_tokens_simple response_text
  let rT := match usage with
    | some u => u.reasoning_tokens
    | none => none
  { input_tokens := inT
    output_tokens := outT
    reasoning_tokens := rT
    total_latency_ms := m.latency_ms
    ttft_ms := m.ttft_ms
    tps := m.tps_of outT
    status_code := some 200
    cost_usd := (inT : ℚ) / 1000000 * price_in + (outT : ℚ) / 1000000 * price_out
    success := true
    error_message := none
    error_type := none
    response_text := some response_text }

/-- Usage metadata of a Google stream. -/
structure GUsage where
  prompt_token_count : Int
  candidates_token_count : Int
deriving DecidableEq

/-- A Google streaming chunk: `chunk.text`, with
`chunk.candidates[0].content.parts[0].text` as the fallback path. -/
structure GChunk where
  text : Option String
  candidate_text : Option String
deriving DecidableEq

/-- The text a Google chunk contributes: `chunk.text` when truthy, else the
candidates path, appended only when truthy. -/
def gExtract (c : GChunk) : Option String :=
  let chosen := match c.text with
    | some t => if t ≠ "" then some t else c.candidate_text
    | none => c.candidate_text
  match chosen with
  | some t => if t ≠ "" then some t else none
  | none => none

/-- The accumulated Google response buffer. -/
def gResponseText (cs : List GChunk) : String :=
  String.join (cs.filterMap gExtract)

/-- The value `GoogleProvider.call` returns after the stream closes without
raising: when the buffer is empty (or whitespace only), the EMPTY_RESPONSE
envelope with `success=False`, `status_code=200`, nil TTFT/TPS, zero output
tokens and zero cost; otherwise the success envelope. -/
def google_call (cs : List GChunk) (prompt system_prompt : String)
    (usage : Option GUsage) (price_in price_out : ℚ) (m : MetricsOut) : Envelope :=
  let response_text := gResponseText cs
  let inT := match usage with
    | some u => u.prompt_token_count
    | none => estimate_tokens_simple (prompt ++ system_prompt)
  let outT := match usage with
    | some u => u.candidates_token_count
    | none => estimate_tokens_simple response_text
  if response_text = "" ∨ pyStrip response_text.data = [] then
    { input_tokens := inT
      output_tokens := 0
      reasoning_tokens := none
      total_latency_ms := m.latency_ms
      ttft_ms := none
      tps := none
      status_code := some 200
      cost_usd := 0
      success := false
      error_message := some "[EMPTY_RESPONSE] API call succeeded but returned no text content"
      error_type := some "EMPTY_RESPONSE"
      response_text := none }
  else
    { input_tokens := inT
      output_tokens := outT
      reasoning_tokens := none
      total_latency_ms := m.latency_ms
      ttft_ms := m.ttft_ms
      tps := m.tps_of outT
      status_code := some 200
      cost_usd := (inT : ℚ) / 1000000 * price_in + (outT : ℚ) / 1000000 * price_out
      success := true
      error_message := none
      error_type := none
      response_text := some response_text }

/-! ## Concrete fixtures used by the counterexamples and witnesses -/

/-- A rate-limited envelope, as `BaseProvider.handle_error` builds it for a
`RateLimitError` (status 429, message prefixed with the error type and
containing the upstream "429" text). -/
def rateLimited429 : Envelope :=
  { input_tokens := 0
    output_tokens := 0
    reasoning_tokens := none
    total_latency_ms := 0
    ttft_ms := none
    tps := none
    status_code := some 429
    cost_usd := 0
    success := false
    error_message := some "[RATE_LIMIT] Error code: 429 - Too Many Requests"
    error_type := some "RATE_LIMIT"
    response_text := none }

/-- A 400 envelope whose message carries none of the transient keywords. -/
def badRequest400 : Envelope :=
  { input_tokens := 0
    output_tokens := 0
    reasoning_tokens := none
    total_latency_ms := 0
    ttft_ms := none
    tps := none
    status_code := some 400
    cost_usd := 0
    success := false
    error_message := some "[BAD_REQUEST] Invalid request body"
    error_type := some "BAD_REQUEST"
    response_text := none }

/-- A successful envelope, used as the outcome of a second call. -/
def okResult : Envelope :=
  { input_tokens := 500
    output_tokens := 3
    reasoning_tokens := none
    total_latency_ms := 800
    ttft_ms := some 120
    tps := some 10
    status_code := some 200
    cost_usd := 0
    success := true
    error_message := none
    error_type := none
    response_text := some "A B C" }

/-- Fixed timing values for adapter-call fixtures. -/
def metricsSample : MetricsOut :=
  { latency_ms := 1234, ttft_ms := none, tps_of := fun _ => none }

/-! # Theorems -/

/-! ## General lemmas about the string primitives -/

/-- `containsStr` decides the infix relation. -/
theorem containsStr_iff (pat : List Char) : ∀ s : List Char,
    containsStr pat s = true ↔ pat <:+: s := by
  intro s
  induction s with
  | nil =>
    cases pat with
    | nil => simp [containsStr]
    | cons p ps => simp [containsStr]
  | cons c rest ih =>
    simp only [containsStr, Bool.or_eq_true, List.infix_cons_iff, ih,
      List.isPrefixOf_iff_prefix]

/-- A pattern containing a character absent from `s` does not occur in `s`. -/
theorem containsStr_eq_false_of_mem (pat s : List Char) (c : Char)
    (hc : c ∈ pat) (hs : c ∉ s) : containsStr pat s = false := by
  by_contra h
  have h1 : containsStr pat s = true := by
    cases hb : containsStr pat s with
    | false => exact absurd hb h
    | true => rfl
  exact hs (((containsStr_iff pat s).mp h1).subset hc)

/-- `re.sub` with a pattern that does not occur is the identity, for any fuel. -/
theorem replaceAllAux_id (pat rep : List Char) : ∀ (fuel : Nat) (s : List Char),
    containsStr pat s = false → replaceAllAux pat rep fuel s = s := by
  intro fuel
  induction fuel with
  | zero => intro s _; rfl
  | succ n ih =>
    intro s h
    cases s with
    | nil =>
      have hpre : pat.isPrefixOf ([] : List Char) = false := by
        cases pat with
        | nil => simp [containsStr] at h
        | cons p ps => rfl
      simp only [replaceAllAux, hpre, Bool.false_eq_true, if_false]
    | cons c rest =>
      simp only [containsStr, Bool.or_eq_false_iff] at h
      simp only [replaceAllAux, h.1, Bool.false_eq_true, if_false]
      rw [ih rest h.2]

/-- `replaceAll` with an absent pattern is the identity. -/
theorem replaceAll_id (pat rep s : List Char) (h : containsStr pat s = false) :
    replaceAll pat rep s = s :=
  replaceAllAux_id pat rep s.length s h

/-- ASCII lower-casing fixes characters that are not upper case. -/
theorem pyToLower_eq_self (c : Char) (h : c.isUpper = false) : pyToLower c = c := by
  simp [pyToLower, h]

/-- A case-insensitive prefix match against a string fixed by lower-casing,
with a pattern fixed by lower-casing, is a literal prefix match. -/
theorem isPrefixOfCI_take (pat : List Char) : ∀ s : List Char,
    isPrefixOfCI pat s = true → (∀ c ∈ s, pyToLower c = c) →
    pat.map pyToLower = pat → s.take pat.length = pat := by
  induction pat with
  | nil => intro s _ _ _; simp
  | cons p ps ih =>
    intro s h hs hp
    cases s with
    | nil => simp [isPrefixOfCI] at h
    | cons c cs =>
      simp only [isPrefixOfCI, Bool.and_eq_true, beq_iff_eq] at h
      simp only [List.map_cons, List.cons.injEq] at hp
      have hc1 : pyToLower c = c := hs c (by simp)
      have hpc : p = c := by rw [← hp.1, h.1, hc1]
      simp only [List.length_cons, List.take_succ_cons, List.cons.injEq]
      exact ⟨hpc.symm, ih cs h.2 (fun x hx => hs x (by simp [hx])) hp.2⟩

/-- Case-insensitive replacement of a lower-case pattern by itself is the
identity on strings fixed by lower-casing, for any fuel. -/
theorem replaceAllCIAux_id (pat : List Char) (hp : pat.map pyToLower = pat) :
    ∀ (fuel : Nat) (s : List Char), (∀ c ∈ s, pyToLower c = c) →
    replaceAllCIAux pat pat fuel s = s := by
  intro fuel
  induction fuel with
  | zero => intro s _; rfl
  | succ n ih =>
    intro s hs
    cases hci : isPrefixOfCI pat s with
    | true =>
      have htake : s.take pat.length = pat := isPrefixOfCI_take pat s hci hs hp
      have hsplit : pat ++ s.drop pat.length = s := by
        conv_rhs => rw [← List.take_append_drop pat.length s]
        rw [htake]
      simp only [replaceAllCIAux, hci, if_true]
      rw [ih (s.drop pat.length) (fun c hc => hs c (List.drop_subset _ _ hc))]
      exact hsplit
    | false =>
      cases s with
      | nil => simp only [replaceAllCIAux, hci, Bool.false_eq_true, if_false]
      | cons c cs =>
        simp only [replaceAllCIAux, hci, Bool.false_eq_true, if_false]
        rw [ih cs (fun x hx => hs x (by simp [hx]))]

/-- `replaceAllCI` version of the previous lemma. -/
theorem replaceAllCI_id (pat s : List Char) (hp : pat.map pyToLower = pat)
    (hs : ∀ c ∈ s, pyToLower c = c) : replaceAllCI pat pat s = s :=
  replaceAllCIAux_id pat hp s.length s hs

/-- `dropWhile` is the identity when the predicate fails on every element. -/
theorem dropWhile_eq_self_of (p : Char → Bool) (s : List Char)
    (h : ∀ c ∈ s, p c = false) : s.dropWhile p = s := by
  cases s with
  | nil => rfl
  | cons c rest => simp [List.dropWhile, h c (by simp)]

/-- `strip` of a string without edge whitespace is the identity. -/
theorem pyStrip_id (s : List Char) (h : ∀ c ∈ s, isPySpace c = false) :
    pyStrip s = s := by
  unfold pyStrip
  rw [dropWhile_eq_self_of _ _ h,
    dropWhile_eq_self_of _ _ (fun c hc => h c (List.mem_reverse.mp hc)),
    List.reverse_reverse]

/-- Literal-prefix stripping does nothing when some pattern character is
absent from the string. -/
theorem stripLit_id (pat s : List Char) (c : Char) (hc : c ∈ pat) (hs : c ∉ s) :
    stripLit pat s = s := by
  unfold stripLit
  have hniff : pat.isPrefixOf s = false := by
    cases hb : pat.isPrefixOf s with
    | false => rfl
    | true =>
      exact absurd ((( List.isPrefixOf_iff_prefix).mp hb).subset hc) hs
  simp [hniff]

/-- Generic-prefix stripping does nothing on a slash-free string. -/
theorem stripGeneric_id (s : List Char) (h : ∀ c ∈ s, c ≠ '/') :
    stripGeneric s = s := by
  have hdrop : s.dropWhile (fun c => c ≠ '/') = [] := by
    induction s with
    | nil => rfl
    | cons c rest ih =>
      have hc := h c (by simp)
      simp only [List.dropWhile, decide_eq_true hc]
      exact ih (fun x hx => h x (by simp [hx]))
  unfold stripGeneric
  rw [hdrop]
  simp

/-! ## Lemmas about hyphen collapsing (step 6) -/

/-- Collapsing only removes characters. -/
theorem collapseHyphens_subset : ∀ s : List Char, collapseHyphens s ⊆ s := by
  intro s
  induction s with
  | nil => simp [collapseHyphens]
  | cons c rest ih =>
    cases rest with
    | nil => simp [collapseHyphens]
    | cons c2 rest2 =>
      by_cases hb : c = '-' ∧ c2 = '-'
      · show collapseHyphens (c :: c2 :: rest2) ⊆ c :: c2 :: rest2
        rw [collapseHyphens, if_pos hb]
        exact ih.trans (List.subset_cons_self c _)
      · show collapseHyphens (c :: c2 :: rest2) ⊆ c :: c2 :: rest2
        rw [collapseHyphens, if_neg hb]
        exact List.cons_subset_cons c ih

/-- Collapsing a list headed by a non-hyphen keeps that head. -/
theorem collapseHyphens_head (c : Char) (rest : List Char) (h : c ≠ '-') :
    ∃ t, collapseHyphens (c :: rest) = c :: t := by
  cases rest with
  | nil => exact ⟨[], rfl⟩
  | cons c2 rest2 =>
    rw [collapseHyphens, if_neg (fun hb => h hb.1)]
    exact ⟨_, rfl⟩

/-- The collapsed list has no two adjacent hyphens. -/
theorem collapseHyphens_noDD : ∀ s : List Char, hasDD (collapseHyphens s) = false := by
  intro s
  induction s with
  | nil => rfl
  | cons c rest ih =>
    cases rest with
    | nil => rfl
    | cons c2 rest2 =>
      by_cases hb : c = '-' ∧ c2 = '-'
      · rw [collapseHyphens, if_pos hb]
        exact ih
      · rw [collapseHyphens, if_neg hb]
        cases ht : collapseHyphens (c2 :: rest2) with
        | nil => rfl
        | cons t1 ts =>
          rw [hasDD, ← ht, ih, Bool.or_false]
          by_cases hc : c = '-'
          · have hc2 : c2 ≠ '-' := fun h2 => hb ⟨hc, h2⟩
            obtain ⟨t, htt⟩ := collapseHyphens_head c2 rest2 hc2
            rw [htt] at ht
            have ht1 : t1 = c2 := (List.cons.injEq _ _ _ _ ▸ ht).1.symm
            simp [ht1, hc2]
          · simp [hc]

/-- Collapsing a list without adjacent hyphens is the identity. -/
theorem collapseHyphens_id : ∀ s : List Char, hasDD s = false → collapseHyphens s = s := by
  intro s
  induction s with
  | nil => intro _; rfl
  | cons c rest ih =>
    cases rest with
    | nil => intro _; rfl
    | cons c2 rest2 =>
      intro h
      rw [hasDD, Bool.or_eq_false_iff] at h
      have hb : ¬(c = '-' ∧ c2 = '-') := by
        intro hb
        rw [hb.1, hb.2] at h
        simp at h
      rw [collapseHyphens, if_neg hb, ih h.2]

/-- Collapsing is idempotent. -/
theorem collapseHyphens_idem (s : List Char) :
    collapseHyphens (collapseHyphens s) = collapseHyphens s :=
  collapseHyphens_id (collapseHyphens s) (collapseHyphens_noDD s)

/-- A hyphen-free prefix of a collapsed list is a prefix of the original. -/
theorem collapse_prefix_lift : ∀ (s pat : List Char), ('-' : Char) ∉ pat →
    pat <+: collapseHyphens s → pat <+: s := by
  intro s
  induction s with
  | nil => intro pat _ h; simpa [collapseHyphens] using h
  | cons c rest ih =>
    cases rest with
    | nil => intro pat _ h; simpa [collapseHyphens] using h
    | cons c2 rest2 =>
      intro pat hp h
      by_cases hb : c = '-' ∧ c2 = '-'
      · rw [collapseHyphens, if_pos hb] at h
        have h2 : pat <+: c2 :: rest2 := ih pat hp h
        cases pat with
        | nil => exact List.nil_prefix
        | cons p ps =>
          exfalso
          have : p = c2 := (List.cons_prefix_cons.mp h2).1
          exact hp (by rw [this, hb.2]; exact List.mem_cons_self _ _)
      · rw [collapseHyphens, if_neg hb] at h
        cases pat with
        | nil => exact List.nil_prefix
        | cons p ps =>
          obtain ⟨hpc, hps⟩ := List.cons_prefix_cons.mp h
          have hps2 : ps <+: c2 :: rest2 :=
            ih ps (fun hm => hp (List.mem_cons_of_mem _ hm)) hps
          exact List.cons_prefix_cons.mpr ⟨hpc, hps2⟩

/-- A hyphen-free infix of a collapsed list is an infix of the original. -/
theorem collapse_infix_lift : ∀ (s pat : List Char), ('-' : Char) ∉ pat →
    pat <:+: collapseHyphens s → pat <:+: s := by
  intro s
  induction s with
  | nil => intro pat _ h; simpa [collapseHyphens] using h
  | cons c rest ih =>
    cases rest with
    | nil => intro pat _ h; simpa [collapseHyphens] using h
    | cons c2 rest2 =>
      intro pat hp h
      by_cases hb : c = '-' ∧ c2 = '-'
      · rw [collapseHyphens, if_pos hb] at h
        exact List.infix_cons (ih pat hp h)
      · rw [collapseHyphens, if_neg hb] at h
        rcases List.infix_cons_iff.mp h with h1 | h1
        · cases pat with
          | nil => exact List.nil_infix
          | cons p ps =>
            obtain ⟨hpc, hps⟩ := List.cons_prefix_cons.mp h1
            have hps2 : ps <+: c2 :: rest2 :=
              collapse_prefix_lift (c2 :: rest2) ps (fun hm => hp (List.mem_cons_of_mem _ hm)) hps
            exact (List.cons_prefix_cons.mpr ⟨hpc, hps2⟩).isInfix
        · exact List.infix_cons (ih pat hp h1)

/-! ## Lemmas about the size-suffix steps (step 7) -/

/-- Step 7a is the identity on strings without `B`. -/
theorem lowerBdash_id : ∀ s : List Char, (∀ x ∈ s, x ≠ 'B') → lowerBdash s = s
  | [], _ => rfl
  | [_], _ => rfl
  | [_, _], _ => rfl
  | c1 :: c2 :: c3 :: rest, h => by
    have hc2 : c2 ≠ 'B' := h c2 (by simp)
    rw [lowerBdash, if_neg (fun hcond => hc2 hcond.2.1),
      lowerBdash_id (c2 :: c3 :: rest) (fun x hx => h x (List.mem_cons_of_mem _ hx))]

/-- Step 7b is the identity on strings without `B`. -/
theorem lowerBend_id (s : List Char) (h : ∀ x ∈ s, x ≠ 'B') : lowerBend s = s := by
  unfold lowerBend
  split
  · next d rest heq =>
    exfalso
    have hmem : ('B' : Char) ∈ s.reverse := by rw [heq]; exact List.mem_cons_self _ _
    exact h 'B' (List.mem_reverse.mp hmem) rfl
  · rfl

/-! ## The normalizer on plain inputs -/

/-- Unpacking the `plainChar` conjunction. -/
theorem plainChar_spec (c : Char) (h : plainChar c = true) :
    c.isUpper = false ∧ c ≠ '/' ∧ c ≠ '_' ∧ isPySpace c = false := by
  simp only [plainChar, Bool.and_eq_true, Bool.not_eq_true', decide_eq_true_eq] at h
  exact ⟨h.1.1.1, h.1.1.2, h.1.2, h.2⟩

/-- A character failing `plainChar` cannot occur in an all-plain string. -/
theorem not_mem_of_plainAll (s : List Char) (hc : ∀ x ∈ s, plainChar x = true)
    (c : Char) (hpc : plainChar c = false) : c ∉ s := by
  intro hm
  rw [hc c hm] at hpc
  exact absurd hpc (by decide)

/-- On a string of plain characters containing no version token, every
normalizer step except hyphen collapsing is the identity, so normalization
is exactly hyphen-run collapsing. -/
theorem normalize_eq_collapse (s : List Char)
    (hc : ∀ x ∈ s, plainChar x = true)
    (hv : ∀ t ∈ versionTokens, containsStr t s = false) :
    normalize_model_name s = collapseHyphens s := by
  by_cases hnil : s = []
  · subst hnil; rfl
  · have hSlash : ('/' : Char) ∉ s := not_mem_of_plainAll s hc '/' (by decide)
    have hUnd : ('_' : Char) ∉ s := not_mem_of_plainAll s hc '_' (by decide)
    have hLl : ('L' : Char) ∉ s := not_mem_of_plainAll s hc 'L' (by decide)
    have hIi : ('I' : Char) ∉ s := not_mem_of_plainAll s hc 'I' (by decide)
    have hBB : ('B' : Char) ∉ s := not_mem_of_plainAll s hc 'B' (by decide)
    have hSpace : ∀ x ∈ s, isPySpace x = false :=
      fun x hx => (plainChar_spec x (hc x hx)).2.2.2
    have hLower : ∀ x ∈ s, pyToLower x = x :=
      fun x hx => pyToLower_eq_self x (plainChar_spec x (hc x hx)).1
    have hBsub : ∀ x ∈ collapseHyphens s, x ≠ 'B' :=
      fun x hx he => hBB (he ▸ collapseHyphens_subset s hx)
    have hSpaceSub : ∀ x ∈ collapseHyphens s, isPySpace x = false :=
      fun x hx => hSpace x (collapseHyphens_subset s hx)
    simp only [normalize_model_name]
    rw [if_neg (by simp [hnil])]
    rw [pyStrip_id s hSpace]
    rw [stripLit_id (lit "accounts/fireworks/models/") s '/' (by decide) hSlash]
    rw [stripLit_id (lit "models/") s '/' (by decide) hSlash]
    rw [stripGeneric_id s (fun x hx he => hSlash (he ▸ hx))]
    rw [stripLit_id (lit "meta-llama/") s '/' (by decide) hSlash]
    rw [stripLit_id (lit "mistralai/") s '/' (by decide) hSlash]
    rw [stripLit_id (lit "NousResearch/") s '/' (by decide) hSlash]
    rw [stripLit_id (lit "Qwen/") s '/' (by decide) hSlash]
    rw [replaceAll_id (lit "v3p3") (lit "3.3") s (hv (lit "v3p3") (by decide))]
    rw [replaceAll_id (lit "v3p2") (lit "3.2") s (hv (lit "v3p2") (by decide))]
    rw [replaceAll_id (lit "v3p1") (lit "3.1") s (hv (lit "v3p1") (by decide))]
    rw [replaceAll_id (lit "v2p5") (lit "2.5") s (hv (lit "v2p5") (by decide))]
    rw [replaceAll_id (lit "v2p0") (lit "2.0") s (hv (lit "v2p0") (by decide))]
    rw [replaceAll_id (lit "v1p5") (lit "1.5") s (hv (lit "v1p5") (by decide))]
    rw [replaceAllCI_id (lit "llama") s (by decide) hLower]
    rw [replaceAll_id (lit "Llama") (lit "llama") s
      (containsStr_eq_false_of_mem (lit "Llama") s 'L' (by decide) hLl)]
    rw [replaceAllCI_id (lit "mixtral") s (by decide) hLower]
    rw [replaceAllCI_id (lit "mistral") s (by decide) hLower]
    rw [replaceAllCI_id (lit "qwen") s (by decide) hLower]
    rw [replaceAll_id (lit "-Instruct") (lit "-instruct") s
      (containsStr_eq_false_of_mem (lit "-Instruct") s 'I' (by decide) hIi)]
    rw [replaceAll_id (lit "_instruct") (lit "-instruct") s
      (containsStr_eq_false_of_mem (lit "_instruct") s '_' (by decide) hUnd)]
    rw [replaceAll_id (lit "_") (lit "-") s
      (containsStr_eq_false_of_mem (lit "_") s '_' (by decide) hUnd)]
    rw [lowerBdash_id (collapseHyphens s) hBsub]
    rw [lowerBend_id (collapseHyphens s) hBsub]
    rw [pyStrip_id (collapseHyphens s) hSpaceSub]

/-- Claim C6, counterexample: model-name normalization is not idempotent.
On `"a/b/c"` the first application strips one path segment (giving `"b/c"`)
and a second application strips another (giving `"c"`), because the rule
`^[^/]+/` of PROVIDER_PREFIXES removes only the first segment per pass. -/
theorem C6_counterexample :
    normalize_model_name (normalize_model_name (lit "a/b/c")) ≠
      normalize_model_name (lit "a/b/c") := by decide

/-- Claim C6, amended: normalization is idempotent on every input consisting
of characters that are not upper case, not `/`, not `_` and not whitespace,
and containing none of the six `vNpM` version tokens — on such inputs a pass
only collapses hyphen runs, which is idempotent.  (On other inputs a second
pass can strip a further path segment, rewrite a surviving version token, or
lower-case an `-Instruct` exposed by underscore replacement.) -/
theorem C6_normalize_idempotent_on_plain (s : List Char)
    (hc : ∀ x ∈ s, plainChar x = true)
    (hv : ∀ t ∈ versionTokens, containsStr t s = false) :
    normalize_model_name (normalize_model_name s) = normalize_model_name s := by
  rw [normalize_eq_collapse s hc hv]
  have hc2 : ∀ x ∈ collapseHyphens s, plainChar x = true :=
    fun x hx => hc x (collapseHyphens_subset s hx)
  have hv2 : ∀ t ∈ versionTokens, containsStr t (collapseHyphens s) = false := by
    intro t ht
    have hdash : ('-' : Char) ∉ t := by
      fin_cases ht <;> decide
    cases hcon : containsStr t (collapseHyphens s) with
    | false => rfl
    | true =>
      exfalso
      have h1 : t <:+: collapseHyphens s := (containsStr_iff t _).mp hcon
      have h2 : t <:+: s := collapse_infix_lift s t hdash h1
      have h3 := (containsStr_iff t s).mpr h2
      rw [hv t ht] at h3
      exact Bool.false_ne_true h3
  rw [normalize_eq_collapse (collapseHyphens s) hc2 hv2, collapseHyphens_idem s]

/-- Witness for C6 (amended) at a concrete model name with a hyphen run. -/
theorem C6_normalize_idempotent_on_plain_witness :
    normalize_model_name (normalize_model_name (lit "llama-3.3--70b-instruct")) =
      normalize_model_name (lit "llama-3.3--70b-instruct") :=
  C6_normalize_idempotent_on_plain (lit "llama-3.3--70b-instruct") (by decide) (by decide)

/-! ## Queue claims -/

/-- Claim C1 (code bug evidence): driving the queue operations from
`run_benchmark_batch` can leave a queue item with `attempts` strictly greater
than `max_attempts`, violating the specified invariant.  With
`max_attempts = 3`, two failing rounds reach `attempts = 4`:
`mark_queue_item_processing` increments the counter on each claim and
`mark_queue_item_failed` increments it again on each failure. -/
theorem C1_attempts_can_exceed_max :
    ∃ it : QItem, ReachableQ 3 it ∧ it.attempts > it.maxAttempts := by
  refine ⟨mark_queue_item_failed
      (mark_queue_item_processing
        (mark_queue_item_failed (mark_queue_item_processing (initQItem 3) 0) "adapter error" 1)
        2) "adapter error" 3, ?_, by decide⟩
  have h1 : RunnerStep (initQItem 3)
      (mark_queue_item_failed (mark_queue_item_processing (initQItem 3) 0) "adapter error" 1) :=
    RunnerStep.failedCall (initQItem 3) "adapter error" 0 1 rfl (by decide)
  have h2 : RunnerStep
      (mark_queue_item_failed (mark_queue_item_processing (initQItem 3) 0) "adapter error" 1)
      (mark_queue_item_failed
        (mark_queue_item_processing
          (mark_queue_item_failed (mark_queue_item_processing (initQItem 3) 0) "adapter error" 1)
          2) "adapter error" 3) :=
    RunnerStep.failedCall _ "adapter error" 2 3 (by decide) (by decide)
  exact Relation.ReflTransGen.head h1 (Relation.ReflTransGen.single h2)

/-- Claim C2 (code bug evidence): `mark_queue_item_failed` increments the
attempts counter itself — for an item with `attempts = 2, max_attempts = 3`
(already incremented once by `mark_queue_item_processing` on this round), the
spec requires the item back in `pending` (2 < 3) with no further increment,
but the code stores `attempts = 3`, `status = failed` and sets
`completed_at`. -/
theorem C2_mark_failed_increments :
    mark_queue_item_failed
      { status := QStatus.processing, attempts := 2, maxAttempts := 3,
        errorMessage := none, startedAt := some 5, completedAt := none }
      "upstream error" 7 =
    { status := QStatus.failed, attempts := 3, maxAttempts := 3,
      errorMessage := some "upstream error", startedAt := some 5,
      completedAt := some 7 } := by decide

/-! ## Batch statistics (claim C10) -/

/-- Every branch of the loop body increments `processed` exactly once. -/
theorem stepCounters_fst (c : Nat × Nat × Nat) (it : BatchItem) :
    (stepCounters c it).1 = c.1 + 1 := by
  unfold stepCounters
  split
  · rfl
  · split <;> rfl

/-- The loop body preserves `processed = successful + failed`. -/
theorem stepCounters_sum (c : Nat × Nat × Nat) (it : BatchItem)
    (h : c.1 = c.2.1 + c.2.2) :
    (stepCounters c it).1 = (stepCounters c it).2.1 + (stepCounters c it).2.2 := by
  unfold stepCounters
  split
  · simp; omega
  · split <;> simp <;> omega

/-- Folding the loop body over the fetched items adds their count to
`processed` and preserves the counter equation. -/
theorem foldl_stepCounters (items : List BatchItem) : ∀ c : Nat × Nat × Nat,
    ((items.foldl stepCounters c).1 = c.1 + items.length) ∧
    (c.1 = c.2.1 + c.2.2 →
      (items.foldl stepCounters c).1 =
        (items.foldl stepCounters c).2.1 + (items.foldl stepCounters c).2.2) := by
  induction items with
  | nil => intro c; exact ⟨by simp, fun h => by simpa using h⟩
  | cons it rest ih =>
    intro c
    constructor
    · have h1 := (ih (stepCounters c it)).1
      simp only [List.foldl_cons, List.length_cons, h1, stepCounters_fst]
      omega
    · intro h
      have h2 := (ih (stepCounters c it)).2 (stepCounters_sum c it h)
      simpa using h2

/-- On a non-trivial fetch the counters come from the fold: they satisfy the
sum equation and `processed` equals the item count. -/
theorem completed_stats (l : List BatchItem) :
    ((l.foldl stepCounters (0, 0, 0)).1 =
      (l.foldl stepCounters (0, 0, 0)).2.1 + (l.foldl stepCounters (0, 0, 0)).2.2) ∧
    (l.foldl stepCounters (0, 0, 0)).1 = l.length := by
  have h := foldl_stepCounters l (0, 0, 0)
  exact ⟨h.2 rfl, by simpa using h.1⟩

/-- Claim C10: `run_benchmark_batch` returns counters with
`processed = successful + failed`; `processed` equals the number of fetched
items (in particular `0` on the aborted and idle paths) and never exceeds the
batch size bound satisfied by the fetch. -/
theorem C10_batch_statistics (budget : Option Bool) (fetched : Option (List BatchItem))
    (batchSize : Nat)
    (hlen : ∀ items, fetched = some items → items.length ≤ batchSize) :
    ((run_benchmark_batch budget fetched).processed =
      (run_benchmark_batch budget fetched).successful +
        (run_benchmark_batch budget fetched).failed) ∧
    (run_benchmark_batch budget fetched).processed ≤ batchSize ∧
    (∀ items, fetched = some items → budget ≠ some true →
      (run_benchmark_batch budget fetched).processed = items.length) ∧
    (budget = some true → (run_benchmark_batch budget fetched).processed = 0) := by
  have hcons : ∀ (b : Option Bool) (it : BatchItem) (rest : List BatchItem),
      b = none ∨ b = some false →
      (∀ items, (some (it :: rest) : Option (List BatchItem)) = some items →
        items.length ≤ batchSize) →
      ((run_benchmark_batch b (some (it :: rest))).processed =
        (run_benchmark_batch b (some (it :: rest))).successful +
          (run_benchmark_batch b (some (it :: rest))).failed) ∧
      (run_benchmark_batch b (some (it :: rest))).processed ≤ batchSize ∧
      (∀ items, (some (it :: rest) : Option (List BatchItem)) = some items →
        b ≠ some true →
        (run_benchmark_batch b (some (it :: rest))).processed = items.length) ∧
      (b = some true → (run_benchmark_batch b (some (it :: rest))).processed = 0) := by
    intro b it rest hb hl
    have hstats := completed_stats (it :: rest)
    rcases hb with rfl | rfl
    · refine ⟨hstats.1, ?_, ?_, ?_⟩
      · show ((it :: rest).foldl stepCounters (0, 0, 0)).1 ≤ batchSize
        rw [hstats.2]
        exact hl (it :: rest) rfl
      · intro items h _
        cases h
        exact hstats.2
      · intro h
        simp at h
    · refine ⟨hstats.1, ?_, ?_, ?_⟩
      · show ((it :: rest).foldl stepCounters (0, 0, 0)).1 ≤ batchSize
        rw [hstats.2]
        exact hl (it :: rest) rfl
      · intro items h _
        cases h
        exact hstats.2
      · intro h
        simp at h
  rcases budget with _ | b
  · rcases fetched with _ | items
    · refine ⟨rfl, by simp [run_benchmark_batch], ?_, ?_⟩
      · intro items h
        simp at h
      · intro h
        simp at h
    · rcases items with _ | ⟨it, rest⟩
      · refine ⟨rfl, by simp [run_benchmark_batch], ?_, ?_⟩
        · intro items h _
          cases h
          rfl
        · intro h
          simp at h
      · exact hcons none it rest (Or.inl rfl) hlen
  · rcases b with _ | _
    · rcases fetched with _ | items
      · refine ⟨rfl, by simp [run_benchmark_batch], ?_, ?_⟩
        · intro items h
          simp at h
        · intro h
          simp at h
      · rcases items with _ | ⟨it, rest⟩
        · refine ⟨rfl, by simp [run_benchmark_batch], ?_, ?_⟩
          · intro items h _
            cases h
            rfl
          · intro h
            simp at h
        · exact hcons (some false) it rest (Or.inr rfl) hlen
    · refine ⟨rfl, by simp [run_benchmark_batch], ?_, fun _ => rfl⟩
      intro items _ hne
      exact absurd rfl hne

/-- Witness for C10 at a concrete two-item batch (one success, one
max-attempts skip). -/
theorem C10_batch_statistics_witness :
    ((run_benchmark_batch (some false)
        (some [⟨0, 3, ItemOutcome.succeeded⟩, ⟨3, 3, ItemOutcome.adapterFailed⟩])).processed =
      (run_benchmark_batch (some false)
        (some [⟨0, 3, ItemOutcome.succeeded⟩, ⟨3, 3, ItemOutcome.adapterFailed⟩])).successful +
        (run_benchmark_batch (some false)
          (some [⟨0, 3, ItemOutcome.succeeded⟩, ⟨3, 3, ItemOutcome.adapterFailed⟩])).failed) ∧
    (run_benchmark_batch (some false)
      (some [⟨0, 3, ItemOutcome.succeeded⟩, ⟨3, 3, ItemOutcome.adapterFailed⟩])).processed = 2 := by
  have h := C10_batch_statistics (some false)
    (some [⟨0, 3, ItemOutcome.succeeded⟩, ⟨3, 3, ItemOutcome.adapterFailed⟩]) 10
    (by intro items hi; cases hi; decide)
  refine ⟨h.1, ?_⟩
  have h2 := h.2.2.1 [⟨0, 3, ItemOutcome.succeeded⟩, ⟨3, 3, ItemOutcome.adapterFailed⟩]
    rfl (by simp)
  simpa using h2

/-! ## Budget breaker (claim C5) -/

/-- Claim C5, counterexample: with `BENCHMARK_BUDGET_CAP = 0` a failed
spending query does not fail open — the swallowed error makes the spend `0.0`
and `0 >= 0` trips the breaker, so `should_abort = true` where the claim
requires `false`. -/
theorem C5_counterexample :
    (check_budget 0 (Except.error "connection refused") 24).should_abort = true := by decide

/-- Claim C5, amended: `check_budget` never raises and always returns
`should_abort = (current_spend >= budget_cap)` — abort exactly when the spend
reaches the cap, including at equality — where a failed spending query is
converted to a spend of `0.0` by `_get_recent_spending`; hence the fail-open
outcome `should_abort = false` holds for every positive cap (in particular
the default 15.0), though not for caps `<= 0`. -/
theorem C5_should_abort_spec (cap : ℚ) (q : Except String ℚ) (hours : Nat) :
    ((check_budget cap q hours).should_abort =
      decide (cap ≤ (check_budget cap q hours).current_spend)) ∧
    (∀ e, q = Except.error e → 0 < cap →
      (check_budget cap q hours).should_abort = false) := by
  constructor
  · show (!decide (get_recent_spending q < cap)) =
      decide (cap ≤ get_recent_spending q)
    rcases le_or_lt cap (get_recent_spending q) with h | h
    · rw [decide_eq_true h, Bool.not_eq_true']
      exact decide_eq_false (not_lt.mpr h)
    · rw [decide_eq_true h, decide_eq_false (not_le.mpr h)]
      rfl
  · intro e he hcap
    subst he
    show (!decide (get_recent_spending (Except.error e) < cap)) = false
    show (!decide ((0 : ℚ) < cap)) = false
    rw [decide_eq_true hcap]
    rfl

/-- Witness for C5 (amended): at the boundary `spend = cap = 15` the breaker
aborts, and with a failed query under the default cap it does not. -/
theorem C5_should_abort_spec_witness :
    (check_budget 15 (Except.ok 15) 24).should_abort = true ∧
    (check_budget 15 (Except.error "db timeout") 24).should_abort = false := by
  constructor
  · have h := (C5_should_abort_spec 15 (Except.ok 15) 24).1
    rw [h]
    decide
  · exact (C5_should_abort_spec 15 (Except.error "db timeout") 24).2 "db timeout" rfl
      (by norm_num)

/-! ## Price-row idempotence window (claim C8) -/

/-- Claim C8, counterexample: the Supabase client's `save_price` inserts
unconditionally — calling it twice within 24 hours (timestamps 0 s and
3600 s) for the same `(provider_id, model_id)` inserts two rows, not one. -/
theorem C8_counterexample :
    (save_price (save_price [] 1 1 2 3 0) 1 1 2 3 3600).length = 2 := by decide

/-- The timestamp fold yields a value as soon as the row set is non-empty. -/
theorem price_foldl_isSome (l : List PriceRow) : ∀ t : Int,
    (l.foldl (fun acc r =>
      match acc with
      | none => some r.timestamp
      | some t0 => some (max t0 r.timestamp)) (some t)).isSome = true := by
  induction l with
  | nil => intro t; rfl
  | cons r rest ih => intro t; simpa using ih (max t r.timestamp)

/-- `get_last_price_timestamp` is `none` only when the pair has no rows. -/
theorem last_ts_none (table : List PriceRow) (pid mid : Nat)
    (h : get_last_price_timestamp table pid mid = none) :
    table.filter (fun r => r.provider_id == pid && r.model_id == mid) = [] := by
  cases hf : table.filter (fun r => r.provider_id == pid && r.model_id == mid) with
  | nil => rfl
  | cons x xs =>
    exfalso
    unfold get_last_price_timestamp at h
    rw [hf] at h
    simp only [List.foldl_cons] at h
    have := price_foldl_isSome xs x.timestamp
    rw [h] at this
    simp at this

/-- Claim C8, amended: the 24-hour idempotence window is enforced by the
scraper's `save_prices_to_db` (which consults `get_last_price_timestamp` and
skips the `save_price` call), not by `save_price` itself.  Processing the
same `(provider_id, model_id)` pricing row twice within 24 hours through
`save_prices_to_db` inserts exactly one new row. -/
theorem C8_scraper_window (table : List PriceRow) (pid mid : Nat)
    (p1 q1 p2 q2 : ℚ) (t1 t2 : Int)
    (hnone : get_last_price_timestamp table pid mid = none)
    (hwin : t2 - t1 < 86400) :
    save_prices_to_db_row (save_prices_to_db_row table pid mid p1 q1 t1) pid mid p2 q2 t2 =
      save_prices_to_db_row table pid mid p1 q1 t1 ∧
    (save_prices_to_db_row table pid mid p1 q1 t1).length = table.length + 1 := by
  have hfil : table.filter (fun r => r.provider_id == pid && r.model_id == mid) = [] :=
    last_ts_none table pid mid hnone
  have h1 : save_prices_to_db_row table pid mid p1 q1 t1 = save_price table pid mid p1 q1 t1 := by
    unfold save_prices_to_db_row
    rw [hnone]
  have hlast : get_last_price_timestamp (save_price table pid mid p1 q1 t1) pid mid =
      some t1 := by
    unfold get_last_price_timestamp save_price
    rw [List.filter_append, hfil]
    simp
  constructor
  · rw [h1]
    unfold save_prices_to_db_row
    rw [hlast]
    exact if_pos hwin
  · rw [h1]
    simp [save_price]

/-- Witness for C8 (amended): inserting at 0 s and again at 3600 s through the
scraper path leaves exactly one row. -/
theorem C8_scraper_window_witness :
    save_prices_to_db_row (save_prices_to_db_row [] 1 1 2 3 0) 1 1 2 3 3600 =
      save_prices_to_db_row [] 1 1 2 3 0 ∧
    (save_prices_to_db_row [] 1 1 2 3 0).length = 0 + 1 := by
  have h := C8_scraper_window [] 1 1 2 3 2 3 0 3600 rfl (by decide)
  exact ⟨h.1, by simpa using h.2⟩

/-! ## Empty streaming buffer (claim C9) -/

/-- Claim C9, counterexample: the OpenAI-compatible adapter has no
empty-buffer check.  A stream that closes with HTTP 200, no content and a
usage record reporting zero completion tokens yields `success = true` with no
`error_type` and an empty `response_text` — not the specified
`EMPTY_RESPONSE` failure envelope. -/
theorem C9_counterexample :
    (openai_compatible_call
      [{ content := none, usage := some { prompt_tokens := 500, completion_tokens := 0,
                                          reasoning_tokens := none } }]
      "p" "s" 1 1 metricsSample).success = true ∧
    (openai_compatible_call
      [{ content := none, usage := some { prompt_tokens := 500, completion_tokens := 0,
                                          reasoning_tokens := none } }]
      "p" "s" 1 1 metricsSample).error_type = none ∧
    (openai_compatible_call
      [{ content := none, usage := some { prompt_tokens := 500, completion_tokens := 0,
                                          reasoning_tokens := none } }]
      "p" "s" 1 1 metricsSample).response_text = some "" := by
  refine ⟨rfl, rfl, ?_⟩
  show some (oaResponseText _) = some ""
  rfl

/-- Claim C9, amended: only the Google adapter implements the empty-buffer
rule.  A Google stream closing with no (or whitespace-only) content returns
the EMPTY_RESPONSE envelope — `success=false`, `error_type=EMPTY_RESPONSE`,
`status_code=200`, nil TTFT and TPS, zero output tokens; the OpenAI-compatible
adapter returns `success=true` with an empty `response_text` on the same
stream shape. -/
theorem C9_empty_buffer (gcs : List GChunk) (ocs : List OAChunk)
    (prompt sys : String) (usage : Option GUsage) (pin pout : ℚ) (m : MetricsOut)
    (hg : ∀ c ∈ gcs, gExtract c = none)
    (ho : ∀ c ∈ ocs, oaContentOf c = none) :
    ((google_call gcs prompt sys usage pin pout m).success = false ∧
      (google_call gcs prompt sys usage pin pout m).error_type = some "EMPTY_RESPONSE" ∧
      (google_call gcs prompt sys usage pin pout m).status_code = some 200 ∧
      (google_call gcs prompt sys usage pin pout m).ttft_ms = none ∧
      (google_call gcs prompt sys usage pin pout m).tps = none ∧
      (google_call gcs prompt sys usage pin pout m).output_tokens = 0) ∧
    ((openai_compatible_call ocs prompt sys pin pout m).success = true ∧
      (openai_compatible_call ocs prompt sys pin pout m).response_text = some "") := by
  have hgrt : gResponseText gcs = "" := by
    unfold gResponseText
    rw [List.filterMap_eq_nil_iff.mpr hg]
    rfl
  have hort : oaResponseText ocs = "" := by
    unfold oaResponseText
    rw [List.filterMap_eq_nil_iff.mpr ho]
    rfl
  constructor
  · have hcond : gResponseText gcs = "" ∨ pyStrip (gResponseText gcs).data = [] :=
      Or.inl hgrt
    unfold google_call
    rw [if_pos hcond]
    exact ⟨rfl, rfl, rfl, rfl, rfl, rfl⟩
  · constructor
    · rfl
    · show some (oaResponseText ocs) = some ""
      rw [hort]

/-- Witness for C9 (amended) on concrete one-chunk streams without content. -/
theorem C9_empty_buffer_witness :
    (google_call [{ text := some "", candidate_text := none }] "p" "s"
      (some { prompt_token_count := 500, candidates_token_count := 0 }) 1 1
      metricsSample).success = false ∧
    (google_call [{ text := some "", candidate_text := none }] "p" "s"
      (some { prompt_token_count := 500, candidates_token_count := 0 }) 1 1
      metricsSample).error_type = some "EMPTY_RESPONSE" ∧
    (openai_compatible_call [{ content := some "", usage := none }] "p" "s" 1 1
      metricsSample).success = true := by
  have h := C9_empty_buffer [{ text := some "", candidate_text := none }]
    [{ content := some "", usage := none }] "p" "s"
    (some { prompt_token_count := 500, candidates_token_count := 0 }) 1 1 metricsSample
    (by decide) (by decide)
  exact ⟨h.1.1, h.1.2.1, h.2.1⟩

/-! ## Adapter-local retry scope (claim C4) -/

/-- Claim C4, counterexample: a rate-limit result (HTTP 429, message
containing "429") is retry-worthy for `should_retry` — `"429"` is on the
transient-keyword list — so `retry_with_backoff` does not surface it to the
Runner: with a second call succeeding, the wrapper returns the success
envelope instead of returning the 429 result immediately. -/
theorem C4_counterexample :
    should_retry rateLimited429 defaultRetryConfig = true ∧
    retry_with_backoff defaultRetryConfig
      (fun n => if n = 0 then rateLimited429 else okResult) = okResult := by
  constructor
  · decide
  · decide

/-- Claim C4, amended: the retry wrapper's scope is `should_retry` — a failed
result is retried when its status is 5xx or its lower-cased message contains
one of the transient keywords, a list that includes `"429"`; a 4xx result
whose message carries none of the keywords is surfaced to the Runner at once
(the first non-retry-worthy result is returned immediately). -/
theorem C4_retry_scope (r : Envelope) (calls : Nat → Envelope) :
    (r.success = false →
      containsStr (lit "429") ((pyStrOfOptMsg r.error_message).map pyToLower) = true →
      should_retry r defaultRetryConfig = true) ∧
    (∀ c : Nat, r.success = false → r.status_code = some c → 500 ≤ c → c < 600 →
      should_retry r defaultRetryConfig = true) ∧
    (∀ c : Nat, r.success = false → r.status_code = some c → 400 ≤ c → c < 500 →
      (∀ k ∈ transientKeywords,
        containsStr k ((pyStrOfOptMsg r.error_message).map pyToLower) = false) →
      should_retry r defaultRetryConfig = false) ∧
    (should_retry (calls 0) defaultRetryConfig = false →
      retry_with_backoff defaultRetryConfig calls = calls 0) := by
  refine ⟨?_, ?_, ?_, ?_⟩
  · intro hs h429
    unfold should_retry
    rw [hs]
    simp only [Bool.false_eq_true, if_false]
    split
    · rfl
    · simp only [List.any_eq_true]
      exact ⟨lit "429", by decide, h429⟩
  · intro c hs hc h5 h6
    unfold should_retry
    rw [hs, hc]
    simp only [Bool.false_eq_true, if_false]
    have hmem : c ∈ List.range' 500 100 := by
      rw [List.mem_range'_1]
      omega
    have hcontains : (defaultRetryConfig.retry_on_status_codes).contains c = true := by
      simpa [defaultRetryConfig] using hmem
    rw [hcontains, decide_eq_true (by omega : c ≠ 0)]
    rfl
  · intro c hs hc h4 h5 hkw
    unfold should_retry
    rw [hs, hc]
    simp only [Bool.false_eq_true, if_false]
    have hnmem : c ∉ List.range' 500 100 := by
      rw [List.mem_range'_1]
      omega
    have hcont : (defaultRetryConfig.retry_on_status_codes).contains c = false := by
      simpa [defaultRetryConfig] using hnmem
    rw [hcont, Bool.and_false]
    simp only [Bool.false_eq_true, if_false, List.any_eq_false]
    exact fun x hx => by simp [hkw x hx]
  · intro h
    unfold retry_with_backoff
    show retryFrom defaultRetryConfig calls 0 (3 + 1) = calls 0
    unfold retryFrom
    simp [h]

/-- Witness for C4 (amended): the concrete 429 result is retry-worthy, the
concrete 400 result is not and is returned immediately by the wrapper. -/
theorem C4_retry_scope_witness :
    should_retry rateLimited429 defaultRetryConfig = true ∧
    should_retry badRequest400 defaultRetryConfig = false ∧
    retry_with_backoff defaultRetryConfig (fun _ => badRequest400) = badRequest400 := by
  have h429 := (C4_retry_scope rateLimited429 (fun _ => badRequest400)).1 rfl (by decide)
  have h400 := (C4_retry_scope badRequest400 (fun _ => badRequest400)).2.2.1 400 rfl rfl
    (by decide) (by decide) (by decide)
  exact ⟨h429, h400,
    (C4_retry_scope badRequest400 (fun _ => badRequest400)).2.2.2 h400⟩

/-! ## Token validation failure policy (claims C3 and C7) -/

/-- `should_fail_benchmark` unfolded to its two conditions. -/
theorem should_fail_iff (v : TokenValidation) :
    should_fail_benchmark v = true ↔
      v.input_tokens < 10 ∨ (v.input_tokens = 0 ∧ v.output_tokens = 0) := by
  unfold should_fail_benchmark
  split
  · next h => simp [h]
  · next h =>
    split
    · next h2 => simp [h2]
    · next h2 => simp [h, h2]

/-- Claim C3: whenever the validated counts satisfy the failure policy —
input below 10, or input and output both zero — the row written by
`save_benchmark` has `success = false` and an `error_message` beginning with
"Token validation failed: ". -/
theorem C3_token_failure_policy (tok : String → Nat) (d : BenchmarkInput)
    (h : (save_benchmark_validation tok d).input_tokens < 10 ∨
      ((save_benchmark_validation tok d).input_tokens = 0 ∧
        (save_benchmark_validation tok d).output_tokens = 0)) :
    (save_benchmark_row tok d).success = false ∧
    (save_benchmark_row tok d).error_message =
      some ("Token validation failed: " ++
        get_validation_summary (save_benchmark_validation tok d)) := by
  have hf : should_fail_benchmark (save_benchmark_validation tok d) = true :=
    (should_fail_iff _).mpr h
  simp [save_benchmark_row, hf]

/-- Witness for C3: a reported input of 5 tokens fails the persisted row. -/
theorem C3_token_failure_policy_witness :
    (save_benchmark_row (fun _ => 0)
      { input_tokens := some 5, output_tokens := some 100, success := true,
        error_message := none, response_text := some "sample body" }).success = false ∧
    (save_benchmark_row (fun _ => 0)
      { input_tokens := some 5, output_tokens := some 100, success := true,
        error_message := none, response_text := some "sample body" }).error_message =
      some ("Token validation failed: " ++
        get_validation_summary (save_benchmark_validation (fun _ => 0)
          { input_tokens := some 5, output_tokens := some 100, success := true,
            error_message := none, response_text := some "sample body" })) :=
  C3_token_failure_policy (fun _ => 0)
    { input_tokens := some 5, output_tokens := some 100, success := true,
      error_message := none, response_text := some "sample body" }
    (Or.inl (by decide))

/-- Claim C7, counterexample: upstream reports `input_tokens = 0` with a
non-empty response; the claim expects the validator inside `save_benchmark`
to estimate the input from the prompt (here the tokenizer would give 120) and
persist `success = true`.  Instead `save_benchmark` passes `prompt=None`, the
input stays 0, and the row is rewritten to a failure. -/
theorem C7_counterexample :
    (save_benchmark_row (fun _ => 120)
      { input_tokens := some 0, output_tokens := some 50, success := true,
        error_message := none,
        response_text := some "A nonempty upstream response body" }).success = false ∧
    (save_benchmark_row (fun _ => 120)
      { input_tokens := some 0, output_tokens := some 50, success := true,
        error_message := none,
        response_text := some "A nonempty upstream response body" }).input_tokens = 0 := by
  constructor
  · decide
  · decide

/-- Claim C7, amended: the validator invoked inside `save_benchmark` receives
`prompt=None`, so the input count is never estimated from the prompt: any
reported input that is null or non-positive becomes `input_tokens = 0`
(`input_tokens_estimated` stays false) and the persisted row is rewritten to
`success = false` with a "Token validation failed: " message; only the output
count can be estimated (from `response_text`). -/
theorem C7_input_never_estimated (tok : String → Nat) (d : BenchmarkInput)
    (h : d.input_tokens = none ∨ ∃ n, d.input_tokens = some n ∧ n ≤ 0) :
    (save_benchmark_validation tok d).input_tokens = 0 ∧
    (save_benchmark_validation tok d).input_tokens_estimated = false ∧
    (save_benchmark_row tok d).input_tokens = 0 ∧
    (save_benchmark_row tok d).success = false := by
  have hInv : (match d.input_tokens with
      | none => true
      | some n => decide (n ≤ 0)) = true := by
    rcases h with h | ⟨n, hn, hle⟩
    · rw [h]
    · rw [hn]
      exact decide_eq_true hle
  have hval : (save_benchmark_validation tok d).input_tokens = 0 ∧
      (save_benchmark_validation tok d).input_tokens_estimated = false := by
    unfold save_benchmark_validation validate_token_counts
    rw [hInv]
    exact ⟨rfl, rfl⟩
  have hf : should_fail_benchmark (save_benchmark_validation tok d) = true :=
    (should_fail_iff _).mpr (Or.inl (by rw [hval.1]; norm_num))
  refine ⟨hval.1, hval.2, ?_, ?_⟩
  · show (save_benchmark_validation tok d).input_tokens = 0
    exact hval.1
  · simp [save_benchmark_row, hf]

/-- Witness for C7 (amended) at the concrete Scenario-5 input. -/
theorem C7_input_never_estimated_witness :
    (save_benchmark_validation (fun _ => 120)
      { input_tokens := some 0, output_tokens := some 50, success := true,
        error_message := none,
        response_text := some "A nonempty upstream response body" }).input_tokens = 0 ∧
    (save_benchmark_validation (fun _ => 120)
      { input_tokens := some 0, output_tokens := some 50, success := true,
        error_message := none,
        response_text := some "A nonempty upstream response body" }).input_tokens_estimated
      = false ∧
    (save_benchmark_row (fun _ => 120)
      { input_tokens := some 0, output_tokens := some 50, success := true,
        error_message := none,
        response_text := some "A nonempty upstream response body" }).input_tokens = 0 ∧
    (save_benchmark_row (fun _ => 120)
      { input_tokens := some 0, output_tokens := some 50, success := true,
        error_message := none,
        response_text := some "A nonempty upstream response body" }).success = false :=
  C7_input_never_estimated (fun _ => 120)
    { input_tokens := some 0, output_tokens := some 50, success := true,
      error_message := none,
      response_text := some "A nonempty upstream response body" }
    (Or.inr ⟨0, rfl, by decide⟩)
